import Mathlib

/-!
Verification of the late-fusion decision layer of the multimodal
Parkinson detection backend.

The embedding models `MultimodalAnalysisService._perform_late_fusion`,
`MultimodalAnalysisService._generate_recommendations` and
`MultimodalAnalysisService.analyze_multimodal` from
`backend/services/multimodal_service.py`.  Python floats are modelled as
exact rationals (`ℚ`); Python dicts of per-modality results are modelled
as association lists `List (String × Option ModalityResult)` (a value of
`none` stands for a falsy entry, an absent `Option` field for a missing
dict key).
-/

namespace ParkinsonFusion

/-- One modality predictor output as consumed by `_perform_late_fusion`:
a dict that may or may not carry the keys `probability_pd`,
`probability_healthy` and `confidence`. -/
structure ModalityResult where
  probability_pd : Option ℚ := none
  probability_healthy : Option ℚ := none
  confidence : Option ℚ := none
deriving DecidableEq

/-- The `base_weights` dict together with the `.get(model_type, 0.1)`
default lookup: voice 0.20, datscan 0.50, spiral 0.30, anything else 0.1. -/
def base_weight (model_type : String) : ℚ :=
  if model_type = "voice" then 20/100
  else if model_type = "datscan" then 50/100
  else if model_type = "spiral" then 30/100
  else 10/100

/-- One iteration of the fusion loop: an entry contributes iff its value
is truthy and carries a `probability_pd` key.  It then contributes the
triple (probability_pd, adjusted weight, confidence), where the
confidence defaults to 0.5 when the key is absent and the adjusted
weight is `base_weight * confidence`. -/
def fusion_contribution : String × Option ModalityResult → Option (ℚ × ℚ × ℚ)
  | (model_type, some result) =>
    match result.probability_pd with
    | some p =>
      some (p, base_weight model_type * result.confidence.getD (50/100),
        result.confidence.getD (50/100))
    | none => none
  | (_, none) => none

/-- All contributions collected by the fusion loop, in iteration order. -/
def fusion_contribs (rs : List (String × Option ModalityResult)) : List (ℚ × ℚ × ℚ) :=
  rs.filterMap fusion_contribution

/-- Accumulator `total_weighted_probability`: Σ probability_pd · adjusted weight. -/
def total_weighted_probability (rs : List (String × Option ModalityResult)) : ℚ :=
  ((fusion_contribs rs).map fun t => t.1 * t.2.1).sum

/-- Accumulator `total_weight`: Σ adjusted weight. -/
def total_weight (rs : List (String × Option ModalityResult)) : ℚ :=
  ((fusion_contribs rs).map fun t => t.2.1).sum

/-- Accumulator `total_confidence`: Σ confidence. -/
def total_confidence (rs : List (String × Option ModalityResult)) : ℚ :=
  ((fusion_contribs rs).map fun t => t.2.2).sum

/-- Accumulator `available_models`: number of contributing entries. -/
def available_models (rs : List (String × Option ModalityResult)) : ℕ :=
  (fusion_contribs rs).length

/-- The dict returned by `_perform_late_fusion`. -/
structure FusionResult where
  prediction : ℕ
  prediction_label : String
  confidence : ℚ
  probability_pd : ℚ
  probability_healthy : ℚ
deriving DecidableEq

/-- Model of `_perform_late_fusion`: weighted averaging with confidence
adjustment, with a fixed fallback when the total weight is not
positive. -/
def perform_late_fusion (rs : List (String × Option ModalityResult)) : FusionResult :=
  if 0 < total_weight rs then
    { prediction :=
        if 1/2 < total_weighted_probability rs / total_weight rs then 1 else 0
      prediction_label :=
        if 1/2 < total_weighted_probability rs / total_weight rs then
          "Parkinson\x27s Disease"
        else "Healthy"
      confidence :=
        if 0 < available_models rs then
          total_confidence rs / (available_models rs : ℚ)
        else 0
      probability_pd := total_weighted_probability rs / total_weight rs
      probability_healthy := 1 - total_weighted_probability rs / total_weight rs }
  else
    { prediction := 0
      prediction_label := "Insufficient Data"
      confidence := 0
      probability_pd := 1/2
      probability_healthy := 1/2 }

/-- Model of `_generate_recommendations`: builds the recommendations list by
successive appends, following the control flow of the source. -/
def generate_recommendations (fusion_result : FusionResult)
    (individual_results : List (String × Option ModalityResult)) : List String :=
  let keys := individual_results.map Prod.fst
  let recommendations : List String := []
  let recommendations :=
    if fusion_result.prediction = 1 then
      let recommendations :=
        if 7/10 < fusion_result.confidence then
          recommendations ++
            ["Schedule comprehensive neurological evaluation",
             "Consider referral to movement disorder specialist",
             "Begin baseline motor function assessment"]
        else
          recommendations ++
            ["Schedule follow-up evaluation for confirmation",
             "Monitor for symptom progression",
             "Consider additional diagnostic testing"]
      let recommendations :=
        if keys.contains "datscan" then
          recommendations ++ ["DATScan results support clinical diagnosis"]
        else recommendations
      let recommendations :=
        if keys.contains "voice" then
          recommendations ++ ["Voice changes warrant speech therapy evaluation"]
        else recommendations
      let recommendations :=
        if keys.contains "spiral" then
          recommendations ++ ["Motor assessment indicates need for physical therapy"]
        else recommendations
      recommendations
    else
      if 4/5 < fusion_result.confidence then
        recommendations ++
          ["Continue routine health monitoring",
           "No immediate follow-up required"]
      else
        recommendations ++
          ["Consider repeat testing in 6-12 months",
           "Monitor for new symptoms"]
  recommendations ++
    ["Maintain regular exercise routine",
     "Schedule annual neurological check-up"]

/-- Decomposition of the recommendations list following the wording of
the spec: the confidence-tier-specific items. -/
def rec_tier_items (fusion_result : FusionResult) : List String :=
  if fusion_result.prediction = 1 then
    if 7/10 < fusion_result.confidence then
      ["Schedule comprehensive neurological evaluation",
       "Consider referral to movement disorder specialist",
       "Begin baseline motor function assessment"]
    else
      ["Schedule follow-up evaluation for confirmation",
       "Monitor for symptom progression",
       "Consider additional diagnostic testing"]
  else
    if 4/5 < fusion_result.confidence then
      ["Continue routine health monitoring",
       "No immediate follow-up required"]
    else
      ["Consider repeat testing in 6-12 months",
       "Monitor for new symptoms"]

/-- Decomposition of the recommendations list: the modality-specific
items.  As the source builds them, they appear only in the positive
(prediction = 1) branch, in the fixed order datscan, voice, spiral. -/
def rec_modality_items (fusion_result : FusionResult)
    (individual_results : List (String × Option ModalityResult)) : List String :=
  if fusion_result.prediction = 1 then
    (if (individual_results.map Prod.fst).contains "datscan" then
      ["DATScan results support clinical diagnosis"] else [])
    ++ (if (individual_results.map Prod.fst).contains "voice" then
      ["Voice changes warrant speech therapy evaluation"] else [])
    ++ (if (individual_results.map Prod.fst).contains "spiral" then
      ["Motor assessment indicates need for physical therapy"] else [])
  else []

/-- Decomposition of the recommendations list: the fixed
general-health tail, always appended. -/
def rec_general_tail : List String :=
  ["Maintain regular exercise routine",
   "Schedule annual neurological check-up"]

/-- The truthiness of the three optional payloads in `analysis_data`
as passed to `analyze_multimodal` by the `/multimodal-analysis`
endpoint (which performs no validation of its own). -/
structure AnalysisData where
  voice_file : Bool
  datscan_file : Bool
  spiral_data : Bool
deriving DecidableEq

/-- Outcome of each external per-modality analysis call
(`_analyze_voice`, `_analyze_datscan`, `_analyze_spiral`): either a
result dict or the message of the exception it raised.  The modality
services themselves are outside the fusion core, so the outcomes are
parameters of the orchestrator model. -/
structure ModalityOutcomes where
  voice : Except String ModalityResult
  datscan : Except String ModalityResult
  spiral : Except String ModalityResult

/-- The relevant fields of the response dict built by
`analyze_multimodal`. -/
structure MultimodalResponse where
  fusion_prediction : ℕ
  fusion_prediction_label : String
  fusion_confidence : ℚ
  fusion_probability_pd : ℚ
  fusion_probability_healthy : ℚ
  individual_results : List (String × Option ModalityResult)
  models_used : List String
  recommendations : List String
  errors : Option (List String)
deriving DecidableEq

/-- Model of `analyze_multimodal`: runs each modality whose payload is truthy,
catching per-modality exceptions into the `errors` list, then performs
late fusion on the collected results and builds the response. -/
def analyze_multimodal (analysis_data : AnalysisData)
    (outcomes : ModalityOutcomes) : MultimodalResponse :=
  let individual_results : List (String × Option ModalityResult) := []
  let models_used : List String := []
  let errors : List String := []
  let (individual_results, models_used, errors) :=
    if analysis_data.voice_file then
      match outcomes.voice with
      | .ok r =>
        (individual_results ++ [("voice", some r)], models_used ++ ["voice"], errors)
      | .error e =>
        (individual_results, models_used, errors ++ ["Voice analysis failed: " ++ e])
    else (individual_results, models_used, errors)
  let (individual_results, models_used, errors) :=
    if analysis_data.datscan_file then
      match outcomes.datscan with
      | .ok r =>
        (individual_results ++ [("datscan", some r)], models_used ++ ["datscan"], errors)
      | .error e =>
        (individual_results, models_used, errors ++ ["DATScan analysis failed: " ++ e])
    else (individual_results, models_used, errors)
  let (individual_results, models_used, errors) :=
    if analysis_data.spiral_data then
      match outcomes.spiral with
      | .ok r =>
        (individual_results ++ [("spiral", some r)], models_used ++ ["spiral"], errors)
      | .error e =>
        (individual_results, models_used, errors ++ ["Spiral analysis failed: " ++ e])
    else (individual_results, models_used, errors)
  let fusion_result := perform_late_fusion individual_results
  { fusion_prediction := fusion_result.prediction
    fusion_prediction_label := fusion_result.prediction_label
    fusion_confidence := fusion_result.confidence
    fusion_probability_pd := fusion_result.probability_pd
    fusion_probability_healthy := fusion_result.probability_healthy
    individual_results := individual_results
    models_used := models_used
    recommendations := generate_recommendations fusion_result individual_results
    errors := if errors.isEmpty then none else some errors }

/-- Successful modality results as the orchestrator collects them:
one entry per modality that was requested and did not fail, in the
fixed order voice, datscan, spiral. -/
def collected_results (analysis_data : AnalysisData)
    (outcomes : ModalityOutcomes) : List (String × Option ModalityResult) :=
  (if analysis_data.voice_file then
    match outcomes.voice with
    | .ok r => [("voice", some r)]
    | .error _ => []
   else [])
  ++ (if analysis_data.datscan_file then
    match outcomes.datscan with
    | .ok r => [("datscan", some r)]
    | .error _ => []
   else [])
  ++ (if analysis_data.spiral_data then
    match outcomes.spiral with
    | .ok r => [("spiral", some r)]
    | .error _ => []
   else [])

/-- Error messages as the orchestrator records them: one entry per
modality that was requested and failed. -/
def collected_errors (analysis_data : AnalysisData)
    (outcomes : ModalityOutcomes) : List String :=
  (if analysis_data.voice_file then
    match outcomes.voice with
    | .ok _ => []
    | .error e => ["Voice analysis failed: " ++ e]
   else [])
  ++ (if analysis_data.datscan_file then
    match outcomes.datscan with
    | .ok _ => []
    | .error e => ["DATScan analysis failed: " ++ e]
   else [])
  ++ (if analysis_data.spiral_data then
    match outcomes.spiral with
    | .ok _ => []
    | .error e => ["Spiral analysis failed: " ++ e]
   else [])

/-! ## Helper lemmas -/

lemma base_weight_pos (model_type : String) : 0 < base_weight model_type := by
  unfold base_weight
  split_ifs <;> norm_num

lemma base_weight_voice : base_weight "voice" = 20/100 := rfl

lemma base_weight_datscan : base_weight "datscan" = 50/100 := rfl

lemma base_weight_spiral : base_weight "spiral" = 30/100 := rfl

lemma fusion_contribs_append (a b : List (String × Option ModalityResult)) :
    fusion_contribs (a ++ b) = fusion_contribs a ++ fusion_contribs b := by
  simp [fusion_contribs]

lemma total_weight_append (a b : List (String × Option ModalityResult)) :
    total_weight (a ++ b) = total_weight a + total_weight b := by
  simp [total_weight, fusion_contribs_append]

lemma total_weighted_probability_append (a b : List (String × Option ModalityResult)) :
    total_weighted_probability (a ++ b)
      = total_weighted_probability a + total_weighted_probability b := by
  simp [total_weighted_probability, fusion_contribs_append]

lemma perform_late_fusion_congr (rs₁ rs₂ : List (String × Option ModalityResult))
    (h : fusion_contribs rs₁ = fusion_contribs rs₂) :
    perform_late_fusion rs₁ = perform_late_fusion rs₂ := by
  simp only [perform_late_fusion, total_weight, total_weighted_probability,
    total_confidence, available_models, h]

/-! ## C1: single-modality pass-through -/

/-- C1: fusing a one-element list whose single valid result has a
positive base weight and confidence `c > 0` yields exactly that result
`probability_pd` and confidence exactly `c`. -/
theorem fuse_single_result_pass_through (m : String) (r : ModalityResult) (p h c : ℚ)
    (hp : r.probability_pd = some p) (hh : r.probability_healthy = some h)
    (hc : r.confidence = some c) (hp0 : 0 ≤ p) (hp1 : p ≤ 1) (hsum : p + h = 1)
    (hbw : 0 < base_weight m) (hcpos : 0 < c) (hc1 : c ≤ 1) :
    (perform_late_fusion [(m, some r)]).probability_pd = p ∧
    (perform_late_fusion [(m, some r)]).confidence = c := by
  have hw : total_weight [(m, some r)] = base_weight m * c := by
    simp [total_weight, fusion_contribs, fusion_contribution, hp, hc]
  have hwp : total_weighted_probability [(m, some r)] = p * (base_weight m * c) := by
    simp [total_weighted_probability, fusion_contribs, fusion_contribution, hp, hc]
  have hk : total_confidence [(m, some r)] = c := by
    simp [total_confidence, fusion_contribs, fusion_contribution, hp, hc]
  have hn : available_models [(m, some r)] = 1 := by
    simp [available_models, fusion_contribs, fusion_contribution, hp]
  have hwpos : 0 < total_weight [(m, some r)] := by
    rw [hw]; exact mul_pos hbw hcpos
  constructor
  · simp only [perform_late_fusion, if_pos hwpos]
    rw [hwp, hw]
    exact mul_div_cancel_right₀ p (ne_of_gt (mul_pos hbw hcpos))
  · simp only [perform_late_fusion, if_pos hwpos, hn, hk]
    norm_num

/-- Witness for C1, instantiating the concrete scenario B of the spec:
only spiral supplied with probability 0.4 and confidence 0.6. -/
theorem fuse_single_result_pass_through_witness :
    (perform_late_fusion
      [("spiral", some ⟨some (40/100), some (60/100), some (60/100)⟩)]).probability_pd
      = 40/100 ∧
    (perform_late_fusion
      [("spiral", some ⟨some (40/100), some (60/100), some (60/100)⟩)]).confidence
      = 60/100 :=
  fuse_single_result_pass_through "spiral" ⟨some (40/100), some (60/100), some (60/100)⟩
    (40/100) (60/100) (60/100) rfl rfl rfl (by norm_num) (by norm_num) (by norm_num)
    (by rw [base_weight_spiral]; norm_num) (by norm_num) (by norm_num)

/-! ## C2: zero total weight falls back to the insufficient-data verdict -/

/-- C2: when every contribution has an exactly zero effective weight
(in particular when the result list is empty), `perform_late_fusion`
returns the exact fallback verdict: probabilities 0.5/0.5, confidence
0, prediction 0 and the "Insufficient Data" label.  The embedded
function is total, so no exception can be raised. -/
theorem fuse_zero_total_weight_fallback (rs : List (String × Option ModalityResult))
    (h : ∀ t ∈ fusion_contribs rs, t.2.1 = 0) :
    perform_late_fusion rs = ⟨0, "Insufficient Data", 0, 1/2, 1/2⟩ := by
  have hw : total_weight rs = 0 := by
    apply List.sum_eq_zero
    intro x hx
    rcases List.mem_map.1 hx with ⟨t, ht, rfl⟩
    exact h t ht
  simp only [perform_late_fusion, hw]
  norm_num

/-- Witness for C2 at a one-element list whose only result has
confidence 0, hence effective weight exactly 0. -/
theorem fuse_zero_total_weight_fallback_witness :
    (∀ t ∈ fusion_contribs
        [("voice", some ⟨some (30/100), some (70/100), some 0⟩)], t.2.1 = 0) ∧
    perform_late_fusion [("voice", some ⟨some (30/100), some (70/100), some 0⟩)]
      = ⟨0, "Insufficient Data", 0, 1/2, 1/2⟩ :=
  ⟨by simp [fusion_contribs, fusion_contribution],
   fuse_zero_total_weight_fallback _
    (by simp [fusion_contribs, fusion_contribution])⟩

/-! ## C7: strict decision threshold -/

/-- C7: with positive total weight, the fused prediction is 1 exactly
when the fused `probability_pd` strictly exceeds the 0.5 threshold; a
fused probability equal to the threshold yields prediction 0. -/
theorem fuse_threshold_tie_break (rs : List (String × Option ModalityResult))
    (h : 0 < total_weight rs) :
    ((perform_late_fusion rs).prediction = 1 ↔
      1/2 < (perform_late_fusion rs).probability_pd) ∧
    ((perform_late_fusion rs).probability_pd = 1/2 →
      (perform_late_fusion rs).prediction = 0) := by
  simp only [perform_late_fusion, if_pos h]
  by_cases hgt : 1/2 < total_weighted_probability rs / total_weight rs
  · constructor
    · simp [hgt]
    · intro heq
      rw [heq] at hgt
      exact absurd hgt (by norm_num)
  · have hle := not_lt.mp hgt
    constructor
    · simp [hgt]
    · intro _
      simp [hgt]
      linarith

/-- Witness for C7 at a one-element list whose fused probability lands
exactly on the threshold: the prediction is 0 (healthy). -/
theorem fuse_threshold_tie_break_witness :
    0 < total_weight [("datscan", some ⟨some (1/2), some (1/2), some 1⟩)] ∧
    (((perform_late_fusion
        [("datscan", some ⟨some (1/2), some (1/2), some 1⟩)]).prediction = 1 ↔
      1/2 < (perform_late_fusion
        [("datscan", some ⟨some (1/2), some (1/2), some 1⟩)]).probability_pd) ∧
    ((perform_late_fusion
        [("datscan", some ⟨some (1/2), some (1/2), some 1⟩)]).probability_pd = 1/2 →
      (perform_late_fusion
        [("datscan", some ⟨some (1/2), some (1/2), some 1⟩)]).prediction = 0)) :=
  ⟨by norm_num [total_weight, fusion_contribs, fusion_contribution, base_weight_datscan,
     List.filterMap_cons, List.filterMap_nil],
   fuse_threshold_tie_break _
    (by norm_num [total_weight, fusion_contribs, fusion_contribution, base_weight_datscan,
      List.filterMap_cons, List.filterMap_nil])⟩

/-! ## C5: order independence of fusion -/

/-- C5: fusing any permutation of a result list produces the identical
verdict, field by field; in particular
`fuse([A, B, C]) = fuse([C, A, B]) = fuse([B, C, A])`. -/
theorem fuse_order_independent (rs₁ rs₂ : List (String × Option ModalityResult))
    (h : rs₁.Perm rs₂) : perform_late_fusion rs₁ = perform_late_fusion rs₂ := by
  have hc : (fusion_contribs rs₁).Perm (fusion_contribs rs₂) := h.filterMap _
  have h1 : total_weighted_probability rs₁ = total_weighted_probability rs₂ :=
    (hc.map _).sum_eq
  have h2 : total_weight rs₁ = total_weight rs₂ := (hc.map _).sum_eq
  have h3 : total_confidence rs₁ = total_confidence rs₂ := (hc.map _).sum_eq
  have h4 : available_models rs₁ = available_models rs₂ := hc.length_eq
  simp only [perform_late_fusion, h1, h2, h3, h4]

/-- Witness for C5 at a concrete three-modality result set and the
rotation `[A, B, C] ~ [C, A, B]`. -/
theorem fuse_order_independent_witness :
    perform_late_fusion
      [("voice", some ⟨some (80/100), some (20/100), some (90/100)⟩),
       ("datscan", some ⟨some (30/100), some (70/100), some (50/100)⟩),
       ("spiral", some ⟨some (40/100), some (60/100), some (60/100)⟩)]
    = perform_late_fusion
      [("spiral", some ⟨some (40/100), some (60/100), some (60/100)⟩),
       ("voice", some ⟨some (80/100), some (20/100), some (90/100)⟩),
       ("datscan", some ⟨some (30/100), some (70/100), some (50/100)⟩)] :=
  fuse_order_independent _ _
    (((List.Perm.swap _ _ []).cons _).trans (List.Perm.swap _ _ _))

/-! ## C3: malformed results are not rejected (corrected) -/

/-- C3 counterexample: a result whose probabilities sum to 2 (hence
malformed in the sense of the claim) is not rejected; `_perform_late_fusion`
silently uses it and returns an ordinary verdict whose
`probability_pd` is the malformed value 3/2 (and whose
`probability_healthy` is even negative).  No validation error exists
anywhere on this path. -/
theorem fuse_malformed_used_counterexample :
    ((3:ℚ)/2 + 1/2 ≠ 1) ∧
    perform_late_fusion [("voice", some ⟨some (3/2), some (1/2), some 1⟩)]
      = ⟨1, "Parkinson\x27s Disease", 1, 3/2, -(1/2)⟩ := by
  constructor
  · norm_num
  · norm_num [perform_late_fusion, total_weighted_probability, total_weight,
      total_confidence, available_models, fusion_contribs, fusion_contribution,
      base_weight_voice, List.filterMap_cons, List.filterMap_nil]

/-- C3 amended: `_perform_late_fusion` performs no validation: every
input list, malformed entries included, is processed by the same
confidence-weighted average (stated here with no validity hypothesis
at all), and the `probability_healthy` field of an entry — hence the
probability-sum invariant — cannot even influence the output. -/
theorem fuse_no_validation (rs l₁ l₂ : List (String × Option ModalityResult))
    (m : String) (r : ModalityResult) (q : Option ℚ)
    (hW : 0 < total_weight rs) :
    (perform_late_fusion rs).probability_pd
      = total_weighted_probability rs / total_weight rs ∧
    perform_late_fusion (l₁ ++ (m, some { r with probability_healthy := q }) :: l₂)
      = perform_late_fusion (l₁ ++ (m, some r) :: l₂) := by
  constructor
  · simp only [perform_late_fusion, if_pos hW]
  · apply perform_late_fusion_congr
    obtain ⟨rp, rh, rc⟩ := r
    cases rp <;>
      simp [fusion_contribs, fusion_contribution,
        List.filterMap_append, List.filterMap_cons]

/-- Witness for the amended statement of C3 at the malformed input of the
counterexample. -/
theorem fuse_no_validation_witness :
    0 < total_weight [("voice", some ⟨some (3/2), some (1/2), some 1⟩)] ∧
    ((perform_late_fusion [("voice", some ⟨some (3/2), some (1/2), some 1⟩)]).probability_pd
      = total_weighted_probability [("voice", some ⟨some (3/2), some (1/2), some 1⟩)]
        / total_weight [("voice", some ⟨some (3/2), some (1/2), some 1⟩)] ∧
    perform_late_fusion
        [("datscan", some ⟨some (3/2), some (99:ℚ), some 1⟩)]
      = perform_late_fusion [("datscan", some ⟨some (3/2), some (1/2), some 1⟩)]) := by
  refine ⟨?_, fuse_no_validation _ [] []
    "datscan" ⟨some (3/2), some (1/2), some 1⟩ (some (99:ℚ)) ?_⟩ <;>
    norm_num [total_weight, fusion_contribs, fusion_contribution, base_weight_voice,
      List.filterMap_cons, List.filterMap_nil]

/-! ## C10: default confidence 0.5 and silent skipping -/

/-- C10: an entry carrying `probability_pd` but no `confidence` key is
not rejected or excluded: fusion behaves exactly as if its confidence
were 0.5 (the default enters both the effective weight and the
arithmetic-mean aggregate confidence, since the whole verdict
coincides); an entry lacking `probability_pd` is silently skipped
entirely. -/
theorem fuse_default_confidence_and_skip (l₁ l₂ : List (String × Option ModalityResult))
    (m m₀ : String) (r r₀ : ModalityResult) (p : ℚ)
    (hp : r.probability_pd = some p) (hc : r.confidence = none)
    (h₀ : r₀.probability_pd = none) :
    perform_late_fusion (l₁ ++ (m, some r) :: l₂)
      = perform_late_fusion
          (l₁ ++ (m, some { r with confidence := some (50/100) }) :: l₂) ∧
    perform_late_fusion (l₁ ++ (m₀, some r₀) :: l₂) = perform_late_fusion (l₁ ++ l₂) := by
  constructor
  · apply perform_late_fusion_congr
    obtain ⟨rp, rh, rc⟩ := r
    obtain rfl : rp = some p := hp
    obtain rfl : rc = none := hc
    simp [fusion_contribs, fusion_contribution,
      List.filterMap_append, List.filterMap_cons]
  · apply perform_late_fusion_congr
    obtain ⟨rp₀, rh₀, rc₀⟩ := r₀
    obtain rfl : rp₀ = none := h₀
    simp [fusion_contribs, fusion_contribution,
      List.filterMap_append, List.filterMap_cons]

/-- Witness for C10 at concrete entries: one with a missing confidence
key, one with a missing `probability_pd` key. -/
theorem fuse_default_confidence_and_skip_witness :
    perform_late_fusion [("voice", some ⟨some (4/5), none, none⟩)]
      = perform_late_fusion [("voice", some ⟨some (4/5), none, some (50/100)⟩)] ∧
    perform_late_fusion [("datscan", some ⟨none, some (1/2), some (9/10)⟩)]
      = perform_late_fusion [] :=
  fuse_default_confidence_and_skip [] [] "voice" "datscan"
    ⟨some (4/5), none, none⟩ ⟨none, some (1/2), some (9/10)⟩ (4/5) rfl rfl rfl

/-! ## C8: monotonicity in the confidence of one contributor -/

lemma weighted_avg_strict_mono (N W p δ : ℚ) (hW : 0 < W) (hδ : 0 < δ) :
    (N / W < p → N / W < (N + p * δ) / (W + δ)) ∧
    (p < N / W → (N + p * δ) / (W + δ) < N / W) := by
  have hW' : 0 < W + δ := by linarith
  constructor
  · intro h1
    rw [div_lt_div_iff₀ hW hW']
    have h1' : N < p * W := (div_lt_iff₀ hW).mp h1
    nlinarith [mul_pos hδ (sub_pos.mpr h1')]
  · intro h2
    rw [div_lt_div_iff₀ hW' hW]
    have h2' : p * W < N := (lt_div_iff₀ hW).mp h2
    nlinarith [mul_pos hδ (sub_pos.mpr h2')]

/-- C8: with positive total weight, strictly increasing the confidence
of one contributing result whose `probability_pd` is strictly above the
fused probability strictly increases the fused probability, and
symmetrically for a contributor strictly below it. -/
theorem fuse_confidence_monotone (l₁ l₂ : List (String × Option ModalityResult))
    (m : String) (r : ModalityResult) (p c c' : ℚ)
    (hp : r.probability_pd = some p) (hc : r.confidence = some c)
    (hcc : c < c')
    (hW : 0 < total_weight (l₁ ++ (m, some r) :: l₂)) :
    ((perform_late_fusion (l₁ ++ (m, some r) :: l₂)).probability_pd < p →
      (perform_late_fusion (l₁ ++ (m, some r) :: l₂)).probability_pd
        < (perform_late_fusion
            (l₁ ++ (m, some { r with confidence := some c' }) :: l₂)).probability_pd) ∧
    (p < (perform_late_fusion (l₁ ++ (m, some r) :: l₂)).probability_pd →
      (perform_late_fusion
          (l₁ ++ (m, some { r with confidence := some c' }) :: l₂)).probability_pd
        < (perform_late_fusion (l₁ ++ (m, some r) :: l₂)).probability_pd) := by
  obtain ⟨rp, rh, rc⟩ := r
  obtain rfl : rp = some p := hp
  obtain rfl : rc = some c := hc
  have hb : 0 < base_weight m := base_weight_pos m
  set δ : ℚ := base_weight m * (c' - c) with hδdef
  have hδ : 0 < δ := mul_pos hb (by linarith)
  have hcs : fusion_contribs (l₁ ++ (m, some ⟨some p, rh, some c⟩) :: l₂)
      = fusion_contribs l₁ ++ (p, base_weight m * c, c) :: fusion_contribs l₂ := by
    simp [fusion_contribs, fusion_contribution, List.filterMap_append, List.filterMap_cons]
  have hcs' : fusion_contribs (l₁ ++ (m, some ⟨some p, rh, some c'⟩) :: l₂)
      = fusion_contribs l₁ ++ (p, base_weight m * c', c') :: fusion_contribs l₂ := by
    simp [fusion_contribs, fusion_contribution, List.filterMap_append, List.filterMap_cons]
  have hWeq : total_weight (l₁ ++ (m, some ⟨some p, rh, some c'⟩) :: l₂)
      = total_weight (l₁ ++ (m, some ⟨some p, rh, some c⟩) :: l₂) + δ := by
    simp only [total_weight, hcs, hcs', List.map_append, List.map_cons,
      List.sum_append, List.sum_cons]
    ring
  have hNeq : total_weighted_probability (l₁ ++ (m, some ⟨some p, rh, some c'⟩) :: l₂)
      = total_weighted_probability (l₁ ++ (m, some ⟨some p, rh, some c⟩) :: l₂) + p * δ := by
    simp only [total_weighted_probability, hcs, hcs', List.map_append, List.map_cons,
      List.sum_append, List.sum_cons]
    ring
  have hW' : 0 < total_weight (l₁ ++ (m, some ⟨some p, rh, some c'⟩) :: l₂) := by
    rw [hWeq]; linarith
  have hpd : (perform_late_fusion (l₁ ++ (m, some ⟨some p, rh, some c⟩) :: l₂)).probability_pd
      = total_weighted_probability (l₁ ++ (m, some ⟨some p, rh, some c⟩) :: l₂)
        / total_weight (l₁ ++ (m, some ⟨some p, rh, some c⟩) :: l₂) := by
    simp only [perform_late_fusion, if_pos hW]
  have hpd' : (perform_late_fusion (l₁ ++ (m, some ⟨some p, rh, some c'⟩) :: l₂)).probability_pd
      = total_weighted_probability (l₁ ++ (m, some ⟨some p, rh, some c'⟩) :: l₂)
        / total_weight (l₁ ++ (m, some ⟨some p, rh, some c'⟩) :: l₂) := by
    simp only [perform_late_fusion, if_pos hW']
  rw [hpd, hpd', hNeq, hWeq]
  exact weighted_avg_strict_mono _ _ p δ hW hδ

/-- Witness for C8: a datscan contributor with probability 0 sits
strictly below the fused probability 2/3, so raising its confidence
from 0.1 to 0.5 strictly lowers the fused probability. -/
theorem fuse_confidence_monotone_witness :
    (1:ℚ)/10 < 1/2 ∧
    0 < total_weight
      [("voice", some ⟨some 1, some 0, some (1/2)⟩),
       ("datscan", some ⟨some 0, some 1, some (1/10)⟩)] ∧
    (0:ℚ) < (perform_late_fusion
      [("voice", some ⟨some 1, some 0, some (1/2)⟩),
       ("datscan", some ⟨some 0, some 1, some (1/10)⟩)]).probability_pd ∧
    (perform_late_fusion
        [("voice", some ⟨some 1, some 0, some (1/2)⟩),
         ("datscan", some ⟨some 0, some 1, some (1/2)⟩)]).probability_pd
      < (perform_late_fusion
        [("voice", some ⟨some 1, some 0, some (1/2)⟩),
         ("datscan", some ⟨some 0, some 1, some (1/10)⟩)]).probability_pd :=
  ⟨by norm_num,
   by norm_num [total_weight, fusion_contribs, fusion_contribution,
     base_weight_voice, base_weight_datscan, List.filterMap_cons, List.filterMap_nil],
   by norm_num [perform_late_fusion, total_weighted_probability, total_weight,
     total_confidence, available_models, fusion_contribs, fusion_contribution,
     base_weight_voice, base_weight_datscan, List.filterMap_cons, List.filterMap_nil],
   (fuse_confidence_monotone
      [("voice", some ⟨some 1, some 0, some (1/2)⟩)] []
      "datscan" ⟨some 0, some 1, some (1/10)⟩ 0 (1/10) (1/2) rfl rfl (by norm_num)
      (by norm_num [total_weight, fusion_contribs, fusion_contribution,
        base_weight_voice, base_weight_datscan,
        List.filterMap_append, List.filterMap_cons, List.filterMap_nil])).2
    (by norm_num [perform_late_fusion, total_weighted_probability, total_weight,
      total_confidence, available_models, fusion_contribs, fusion_contribution,
      base_weight_voice, base_weight_datscan, List.filterMap_cons, List.filterMap_nil])⟩

/-! ## C6: verdict invariants for valid inputs -/

/-- A modality result satisfying the input invariants the spec assumes:
both probabilities present, in [0,1] and summing to 1, and a confidence
present in [0,1]. -/
def valid_modality_result (r : ModalityResult) : Prop :=
  ∃ p h c, r.probability_pd = some p ∧ r.probability_healthy = some h ∧
    r.confidence = some c ∧ 0 ≤ p ∧ p ≤ 1 ∧ 0 ≤ h ∧ h ≤ 1 ∧ p + h = 1 ∧
    0 ≤ c ∧ c ≤ 1

lemma contrib_bounds (rs : List (String × Option ModalityResult))
    (hval : ∀ x ∈ rs, ∀ r, x.2 = some r → valid_modality_result r) :
    ∀ t ∈ fusion_contribs rs,
      0 ≤ t.1 ∧ t.1 ≤ 1 ∧ 0 ≤ t.2.2 ∧ t.2.2 ≤ 1 ∧ 0 ≤ t.2.1 := by
  intro t ht
  rcases List.mem_filterMap.mp ht with ⟨⟨mt, or⟩, hmem, hf⟩
  cases or with
  | none => simp [fusion_contribution] at hf
  | some r =>
    rcases hval _ hmem r rfl with ⟨p, h, c, hp, hh, hc, hp0, hp1, hh0, hh1, hsum, hc0, hc1⟩
    simp only [fusion_contribution, hp, hc, Option.getD_some] at hf
    rw [← Option.some.inj hf]
    exact ⟨hp0, hp1, hc0, hc1,
      mul_nonneg (le_of_lt (base_weight_pos mt)) hc0⟩

lemma list_sum_map_one (cs : List (ℚ × ℚ × ℚ)) :
    (cs.map fun _ => (1:ℚ)).sum = cs.length := by
  induction cs with
  | nil => simp
  | cons a t ih =>
    simp [ih]
    ring

/-- C6: for valid inputs the fused verdict satisfies the invariants:
the two fused probabilities sum to exactly 1 (hence certainly within
the 1e-9 tolerance), and the fused confidence and both fused
probabilities lie in [0,1]. -/
theorem fuse_verdict_invariants (rs : List (String × Option ModalityResult))
    (hval : ∀ x ∈ rs, ∀ r, x.2 = some r → valid_modality_result r) :
    (perform_late_fusion rs).probability_pd
      + (perform_late_fusion rs).probability_healthy = 1 ∧
    0 ≤ (perform_late_fusion rs).confidence ∧
    (perform_late_fusion rs).confidence ≤ 1 ∧
    0 ≤ (perform_late_fusion rs).probability_pd ∧
    (perform_late_fusion rs).probability_pd ≤ 1 ∧
    0 ≤ (perform_late_fusion rs).probability_healthy ∧
    (perform_late_fusion rs).probability_healthy ≤ 1 := by
  have hb := contrib_bounds rs hval
  by_cases hW : 0 < total_weight rs
  · have hN0 : 0 ≤ total_weighted_probability rs := by
      apply List.sum_nonneg
      intro x hx
      rcases List.mem_map.1 hx with ⟨t, ht, rfl⟩
      exact mul_nonneg (hb t ht).1 (hb t ht).2.2.2.2
    have hNW : total_weighted_probability rs ≤ total_weight rs := by
      apply List.sum_le_sum
      intro t ht
      exact mul_le_of_le_one_left (hb t ht).2.2.2.2 (hb t ht).2.1
    have hpd0 : 0 ≤ total_weighted_probability rs / total_weight rs :=
      div_nonneg hN0 (le_of_lt hW)
    have hpd1 : total_weighted_probability rs / total_weight rs ≤ 1 :=
      (div_le_one hW).mpr hNW
    have hcs_ne : fusion_contribs rs ≠ [] := by
      intro hnil
      rw [total_weight, hnil] at hW
      simp at hW
    have hn : 0 < available_models rs := by
      rw [available_models]
      exact List.length_pos.mpr hcs_ne
    have hC0 : 0 ≤ total_confidence rs := by
      apply List.sum_nonneg
      intro x hx
      rcases List.mem_map.1 hx with ⟨t, ht, rfl⟩
      exact (hb t ht).2.2.1
    have hCn : total_confidence rs ≤ (available_models rs : ℚ) := by
      rw [total_confidence, available_models, ← list_sum_map_one (fusion_contribs rs)]
      apply List.sum_le_sum
      intro t ht
      exact (hb t ht).2.2.2.1
    have hnq : (0:ℚ) < (available_models rs : ℚ) := by exact_mod_cast hn
    simp only [perform_late_fusion, if_pos hW, if_pos hn]
    refine ⟨by ring, div_nonneg hC0 (le_of_lt hnq), (div_le_one hnq).mpr hCn,
      hpd0, hpd1, by linarith, by linarith⟩
  · simp only [perform_late_fusion, if_neg hW]
    norm_num

/-- Witness for C6 at a concrete valid single-modality input. -/
theorem fuse_verdict_invariants_witness :
    (∀ x ∈ [("voice", some (⟨some (4/5), some (1/5), some (9/10)⟩ : ModalityResult))],
      ∀ r, x.2 = some r → valid_modality_result r) ∧
    ((perform_late_fusion [("voice", some ⟨some (4/5), some (1/5), some (9/10)⟩)]).probability_pd
      + (perform_late_fusion
          [("voice", some ⟨some (4/5), some (1/5), some (9/10)⟩)]).probability_healthy = 1 ∧
    0 ≤ (perform_late_fusion
        [("voice", some ⟨some (4/5), some (1/5), some (9/10)⟩)]).confidence ∧
    (perform_late_fusion
        [("voice", some ⟨some (4/5), some (1/5), some (9/10)⟩)]).confidence ≤ 1 ∧
    0 ≤ (perform_late_fusion
        [("voice", some ⟨some (4/5), some (1/5), some (9/10)⟩)]).probability_pd ∧
    (perform_late_fusion
        [("voice", some ⟨some (4/5), some (1/5), some (9/10)⟩)]).probability_pd ≤ 1 ∧
    0 ≤ (perform_late_fusion
        [("voice", some ⟨some (4/5), some (1/5), some (9/10)⟩)]).probability_healthy ∧
    (perform_late_fusion
        [("voice", some ⟨some (4/5), some (1/5), some (9/10)⟩)]).probability_healthy ≤ 1) := by
  have hval : ∀ x ∈ [("voice", some (⟨some (4/5), some (1/5), some (9/10)⟩ : ModalityResult))],
      ∀ r, x.2 = some r → valid_modality_result r := by
    intro x hx r hr
    rcases List.mem_singleton.mp hx with rfl
    cases Option.some.inj hr
    exact ⟨4/5, 1/5, 9/10, rfl, rfl, rfl, by norm_num, by norm_num, by norm_num,
      by norm_num, by norm_num, by norm_num, by norm_num⟩
  exact ⟨hval, fuse_verdict_invariants _ hval⟩

/-! ## C9: structure of the recommendations list (corrected) -/

/-- C9 counterexample: for a positive verdict with voice and datscan
contributing, the recommendations list places the datscan item before
the voice item, so it is not the claimed concatenation with modality
items in the enumeration order voice, datscan, spiral. -/
theorem recommendations_order_counterexample :
    generate_recommendations ⟨1, "Parkinson\x27s Disease", 3/4, 3/5, 2/5⟩
      [("voice", some ⟨some (3/5), some (2/5), some (3/4)⟩),
       ("datscan", some ⟨some (3/5), some (2/5), some (3/4)⟩)]
    = ["Schedule comprehensive neurological evaluation",
       "Consider referral to movement disorder specialist",
       "Begin baseline motor function assessment",
       "DATScan results support clinical diagnosis",
       "Voice changes warrant speech therapy evaluation",
       "Maintain regular exercise routine",
       "Schedule annual neurological check-up"] ∧
    generate_recommendations ⟨1, "Parkinson\x27s Disease", 3/4, 3/5, 2/5⟩
      [("voice", some ⟨some (3/5), some (2/5), some (3/4)⟩),
       ("datscan", some ⟨some (3/5), some (2/5), some (3/4)⟩)]
    ≠ ["Schedule comprehensive neurological evaluation",
       "Consider referral to movement disorder specialist",
       "Begin baseline motor function assessment",
       "Voice changes warrant speech therapy evaluation",
       "DATScan results support clinical diagnosis",
       "Maintain regular exercise routine",
       "Schedule annual neurological check-up"] := by
  have heval : generate_recommendations ⟨1, "Parkinson\x27s Disease", 3/4, 3/5, 2/5⟩
      [("voice", some ⟨some (3/5), some (2/5), some (3/4)⟩),
       ("datscan", some ⟨some (3/5), some (2/5), some (3/4)⟩)]
    = ["Schedule comprehensive neurological evaluation",
       "Consider referral to movement disorder specialist",
       "Begin baseline motor function assessment",
       "DATScan results support clinical diagnosis",
       "Voice changes warrant speech therapy evaluation",
       "Maintain regular exercise routine",
       "Schedule annual neurological check-up"] := by
    norm_num [generate_recommendations]
    decide
  refine ⟨heval, ?_⟩
  rw [heval]
  decide

/-- C9 amended: the recommendations list is always the concatenation of
the confidence-tier items, then the modality-specific items, then the
fixed two-element general-health tail — but the modality items appear
only when the prediction is positive, and then in the fixed order
datscan, voice, spiral (not voice, datscan, spiral). -/
theorem recommendations_decomposition (fusion_result : FusionResult)
    (individual_results : List (String × Option ModalityResult)) :
    generate_recommendations fusion_result individual_results
      = rec_tier_items fusion_result
        ++ rec_modality_items fusion_result individual_results
        ++ rec_general_tail := by
  simp only [generate_recommendations, rec_tier_items, rec_modality_items, rec_general_tail]
  split_ifs <;> simp

/-! ## C4: zero-input requests are not rejected (corrected) -/

/-- C4 counterexample: a request supplying no modality input at all is
not rejected as a validation failure; it flows through the orchestrator
to the FusionEngine fallback and produces the "Insufficient Data"
verdict with no recorded errors. -/
theorem zero_input_routed_to_fallback_counterexample :
    (analyze_multimodal ⟨false, false, false⟩
      ⟨.error "boom", .error "boom", .error "boom"⟩).fusion_prediction_label
      = "Insufficient Data" ∧
    (analyze_multimodal ⟨false, false, false⟩
      ⟨.error "boom", .error "boom", .error "boom"⟩).individual_results = [] ∧
    (analyze_multimodal ⟨false, false, false⟩
      ⟨.error "boom", .error "boom", .error "boom"⟩).errors = none := by
  refine ⟨?_, rfl, rfl⟩
  norm_num [analyze_multimodal, perform_late_fusion, total_weighted_probability,
    total_weight, total_confidence, available_models, fusion_contribs, fusion_contribution]

/-- C4 amended: the orchestrator is total — it never raises, not even
when zero modalities are supplied.  Its response is fully characterised
by: the collected per-modality successes (failures excluded, their
messages recorded in `errors`), late fusion applied to exactly those
successes, and the `errors` field null only when nothing failed.  The
zero-input case therefore reaches the fusion fallback rather than any
caller-level validation. -/
theorem analyze_multimodal_characterisation (analysis_data : AnalysisData)
    (outcomes : ModalityOutcomes) :
    analyze_multimodal analysis_data outcomes =
      { fusion_prediction :=
          (perform_late_fusion (collected_results analysis_data outcomes)).prediction
        fusion_prediction_label :=
          (perform_late_fusion (collected_results analysis_data outcomes)).prediction_label
        fusion_confidence :=
          (perform_late_fusion (collected_results analysis_data outcomes)).confidence
        fusion_probability_pd :=
          (perform_late_fusion (collected_results analysis_data outcomes)).probability_pd
        fusion_probability_healthy :=
          (perform_late_fusion (collected_results analysis_data outcomes)).probability_healthy
        individual_results := collected_results analysis_data outcomes
        models_used := (collected_results analysis_data outcomes).map Prod.fst
        recommendations :=
          generate_recommendations
            (perform_late_fusion (collected_results analysis_data outcomes))
            (collected_results analysis_data outcomes)
        errors :=
          if (collected_errors analysis_data outcomes).isEmpty then none
          else some (collected_errors analysis_data outcomes) } := by
  obtain ⟨v, dt, s⟩ := analysis_data
  obtain ⟨ov, od, os⟩ := outcomes
  cases v <;> cases dt <;> cases s <;> cases ov <;> cases od <;> cases os <;> rfl

end ParkinsonFusion
